import Mathlib

/-!
Verification of `avocado/core/suite.py` (test-suite construction core).

The file embeds the data model and operations of the source module as
executable Lean definitions.  External collaborators that live outside the
source file (the reference resolver, the variant-generation engine, the tag
filter, the per-kind runnable-config carve-out, the settings registry) are
abstracted as parameters bundled in the `Ext` structure, per the module's
documented collaborator contracts.
-/

namespace Avocado

/-- Configuration values stored in the layered config dict.  Only the value
shapes the source module actually consults are modelled: booleans, strings,
lists of name/value string pairs (for `run.test_parameters`), and an explicit
null.  Python truthiness over these shapes is `Value.truthy`. -/
inductive Value where
  | vNone : Value
  | vBool (b : Bool) : Value
  | vStr (s : String) : Value
  | vPairs (l : List (String × String)) : Value
  deriving DecidableEq, Repr

/-- Python truthiness of a configuration value. -/
def Value.truthy : Value → Bool
  | .vNone => false
  | .vBool b => b
  | .vStr s => !s.isEmpty
  | .vPairs l => !l.isEmpty

/-- A configuration mapping (`dict` in the source): dotted option name to
value; `none` means the key is absent. -/
abbrev Config := String → Option Value

/-- `config.get(key)` — lookup with absent keys yielding `none`. -/
def Config.get (c : Config) (k : String) : Option Value := c k

/-- Truthiness of a `config.get` result: an absent key is falsy. -/
def truthyO : Option Value → Bool
  | none => false
  | some v => v.truthy

/-- `base.update(overlay)` on dicts: keys present in the overlay win,
all other keys keep the base value. -/
def Config.update (base overlay : Config) : Config :=
  fun k => match overlay k with
    | some v => some v
    | none => base k

/-- The three-layer configuration merge performed both by `TestSuite.__init__`
(`settings.as_dict()` then `update(job_config)` then `update(config)`,
each `update` skipped when the layer is absent) and by `from_config`. -/
def merge3 (defaults : Config) (job_config : Option Config) (config : Option Config) : Config :=
  let c1 := match job_config with
    | some j => defaults.update j
    | none => defaults
  match config with
  | some c => c1.update c
  | none => c1

/-- Python dict insertion: replace the value when the key is present,
otherwise append the pair at the end. -/
def dictInsert (d : List (String × String)) (k v : String) : List (String × String) :=
  if d.any (fun p => p.1 = k) then
    d.map (fun p => if p.1 = k then (k, v) else p)
  else d ++ [(k, v)]

/-- The dict comprehension of the `test_parameters` property:
build a dict from a list of name/value pairs, later duplicates winning. -/
def dictOfPairs (l : List (String × String)) : List (String × String) :=
  l.foldl (fun d p => dictInsert d p.1 p.2) []

/-- A parameter-tree node, as used for the synthetic test-parameters variant:
`TreeNode().get_node("/", True)` followed by `tree_nodes.value = params`. -/
structure TreeNode where
  path : String
  value : List (String × String)
  deriving DecidableEq, Repr

/-- The payload under a variant's `"variant"` key: either the single tree
node built by `_get_test_variants` for explicit test parameters, or the
node list produced by the external variant-generation engine. -/
inductive VPayload where
  | tree (t : TreeNode) : VPayload
  | varlist (l : List TreeNode) : VPayload
  deriving DecidableEq, Repr

/-- One point of the parameter space: the dicts
`{"variant": ..., "variant_id": ..., "paths": ...}` iterated by the
varianter or built synthetically from test parameters. -/
structure Variant where
  variant : VPayload
  variant_id : Option String
  paths : List String
  deriving DecidableEq, Repr

/-- An executable unit of work.  `variant` holds the serialized
(`dump_variant`) form attached during expansion; `default_config` is the
kind-specific configuration carve-out. -/
structure Runnable where
  kind : String
  uri : String
  tags : List String
  default_config : Config
  variant : Option String

/-- Result status of resolving one reference.  Only `SUCCESS` versus
non-`SUCCESS` is observable in this module. -/
inductive ReferenceResolutionResult where
  | SUCCESS : ReferenceResolutionResult
  | NOTFOUND : ReferenceResolutionResult
  | ERROR : ReferenceResolutionResult
  deriving DecidableEq, Repr

/-- The outcome of resolving one reference string: a status and, on
success, the contained runnables. -/
structure ReferenceResolution where
  result : ReferenceResolutionResult
  resolutions : List Runnable

/-- The external variant-generation engine, represented by the finite
sequence of variants its `itertests()` yields (the engine is finite and
restartable per the documented collaborator contract); the engine is truthy
exactly when it reports at least one variant. -/
structure Varianter where
  itertests : List Variant

/-- The external collaborators of the module, bundled:
`is_empty_variant` and `dump_variant` from the varianter module,
`Runnable.filter_runnable_config` (`frc`), `filter_tags_on_runnables`
(`ftr`), variant parsing from a config (`varianterOf`, the result of
`Varianter().parse(config)`), `settings.as_dict()` (`settings_dict`),
the resolver pipeline including the hint-file handling (`resolveRefs`,
failing with the detail text of a reference-resolution error), and the
generated fallback suite name (`uuid4`). -/
structure Ext where
  is_empty_variant : VPayload → Bool
  dump_variant : Variant → String
  frc : String → Config → Config
  ftr : List ReferenceResolution → Option Value → Option Value → Option Value → List Runnable
  varianterOf : Config → Varianter
  settings_dict : Config
  resolveRefs : Config → Except String (List ReferenceResolution)
  uuid4 : String

/-- The failures construction can surface: the module's own
`TestSuiteError`, and the interpreter-level `TypeError` raised when a
`None` test list is iterated. -/
inductive PyError where
  | testSuiteError (msg : String) : PyError
  | typeError (msg : String) : PyError
  deriving DecidableEq, Repr

/-- The documented mutual-exclusion error message raised by
`_check_both_parameters_and_variants`. -/
def mutual_exclusion_msg : String :=
  "Specifying test parameters (with config entry \"run.test_parameters\" or command line \"-p\") along with any varianter plugin (run \"avocado plugins\" for a list) is not yet supported. Please use one or the other."

/-- The descriptive no-tests message raised by `from_config` when the suite
resolves to no tests and missing references are not tolerated. -/
def no_tests_msg : String :=
  "Test Suite could not be created. No test references provided nor any other arguments resolved into tests"

/-- The interpreter message for iterating `None`. -/
def none_iter_msg : String := "NoneType object is not iterable"

/-- The suite lifecycle status enumeration. -/
inductive TestSuiteStatus where
  | RESOLUTION_NOT_STARTED : TestSuiteStatus
  | TESTS_NOT_FOUND : TestSuiteStatus
  | TESTS_FOUND : TestSuiteStatus
  | UNKNOWN : TestSuiteStatus
  deriving DecidableEq, Repr

/-- `resolutions_to_runnables(resolutions, config)`: when a by-tag filter is
configured the external tag filter owns selection entirely; otherwise iterate
the resolutions, skip non-`SUCCESS` ones, assign each surviving runnable its
kind-specific filtered configuration and append it. -/
def resolutions_to_runnables (E : Ext) (resolutions : List ReferenceResolution)
    (config : Config) : List Runnable :=
  let filter_by_tags := config.get "filter.by_tags.tags"
  let include_empty := config.get "filter.by_tags.include_empty"
  let include_empty_key := config.get "filter.by_tags.include_empty_key"
  if truthyO filter_by_tags then
    E.ftr resolutions filter_by_tags include_empty include_empty_key
  else
    resolutions.foldl
      (fun result resolution =>
        if resolution.result ≠ ReferenceResolutionResult.SUCCESS then
          result
        else
          resolution.resolutions.foldl
            (fun result runnable =>
              result ++ [{ runnable with default_config := E.frc runnable.kind config }])
            result)
      []

/-- The `TestSuite` aggregate state: name, current test list (`none` models
Python `None`), retained resolutions, enabled flag, merged configuration and
the parsed variant-generation engine (the `variants` lazy property, whose
parse is deterministic in the config). -/
structure TestSuite where
  name : String
  tests : Option (List Runnable)
  resolutions : Option (List ReferenceResolution)
  enabled : Bool
  config : Config
  variants : Varianter

/-- The `test_parameters` property: a dict built from the name/value pairs
under `run.test_parameters`, defaulting to empty when the key is absent. -/
def TestSuite.test_parameters (s : TestSuite) : List (String × String) :=
  match s.config.get "run.test_parameters" with
  | some (.vPairs l) => dictOfPairs l
  | _ => []

/-- The `size` property: 0 when tests is `None`, else the list length. -/
def TestSuite.size (s : TestSuite) : Nat :=
  match s.tests with
  | none => 0
  | some ts => ts.length

/-- The `status` property: the cascade of `tests is None`, `size == 0`,
`size > 0`, with `UNKNOWN` as the final fallback arm. -/
def TestSuite.status (s : TestSuite) : TestSuiteStatus :=
  if s.tests.isNone then TestSuiteStatus.RESOLUTION_NOT_STARTED
  else if s.size = 0 then TestSuiteStatus.TESTS_NOT_FOUND
  else if s.size > 0 then TestSuiteStatus.TESTS_FOUND
  else TestSuiteStatus.UNKNOWN

/-- `_has_both_parameters_and_variants`: false when test parameters are
empty, otherwise true exactly when some variant of the engine is non-empty
per `is_empty_variant`. -/
def TestSuite.has_both_parameters_and_variants (E : Ext) (s : TestSuite) : Bool :=
  if s.test_parameters.isEmpty then false
  else s.variants.itertests.any (fun variant => !E.is_empty_variant variant.variant)

/-- `_convert_to_dry_run`: when the configured suite runner is `"nrunner"`,
rewrite every runnable's `kind` to `"dry-run"` in place; iterating a `None`
test list raises `TypeError`.  Any other runner leaves the suite untouched. -/
def TestSuite.convert_to_dry_run (s : TestSuite) : Except PyError TestSuite :=
  if s.config.get "run.suite_runner" = some (.vStr "nrunner") then
    match s.tests with
    | none => .error (.typeError none_iter_msg)
    | some ts =>
        .ok { s with tests := some (ts.map (fun runnable => { runnable with kind := "dry-run" })) }
  else .ok s

/-- The aggregate record assembled by the first half of `__init__`: fields
stored, configuration merged (defaults, then job config, then suite config),
variant engine parsed from the merged configuration. -/
def TestSuite.initial (E : Ext) (name : String) (config : Option Config)
    (tests : Option (List Runnable)) (job_config : Option Config)
    (resolutions : Option (List ReferenceResolution)) (enabled : Bool) : TestSuite :=
  let cfg := merge3 E.settings_dict job_config config
  { name := name, tests := tests, resolutions := resolutions, enabled := enabled,
    config := cfg, variants := E.varianterOf cfg }

/-- `TestSuite.__init__`: build the record, run the mutual-exclusion check
(raising `TestSuiteError` when it fires), then perform the dry-run
conversion when `run.dry_run.enabled` is truthy. -/
def TestSuite.init (E : Ext) (name : String) (config : Option Config)
    (tests : Option (List Runnable)) (job_config : Option Config)
    (resolutions : Option (List ReferenceResolution)) (enabled : Bool) :
    Except PyError TestSuite :=
  let s := TestSuite.initial E name config tests job_config resolutions enabled
  if s.has_both_parameters_and_variants E then
    .error (.testSuiteError mutual_exclusion_msg)
  else if truthyO (s.config.get "run.dry_run.enabled") then
    s.convert_to_dry_run
  else
    .ok s

/-- `add_variant` inside `_get_test_variants`: deep-copy the runnable and
attach the serialized variant (deep copy is the identity on these pure
values; the fresh record per binding models it). -/
def add_variant (E : Ext) (runnable : Runnable) (variant : Variant) : Runnable :=
  { runnable with variant := some (E.dump_variant variant) }

/-- `_get_test_variants`: with non-empty test parameters, bind every test to
the one synthetic variant (root path `"/"`, tree payload the flattened
parameter dict, id `None`); otherwise, with a truthy variant engine, expand
per `run.execution_order`, any other order value producing the empty list;
iterating a `None` test list raises `TypeError`. -/
def TestSuite._get_test_variants (E : Ext) (s : TestSuite) :
    Except PyError (List Runnable) :=
  if !s.test_parameters.isEmpty then
    let paths := ["/"]
    let tree_nodes : TreeNode := { path := "/", value := s.test_parameters }
    let variant : Variant := { variant := .tree tree_nodes, variant_id := none, paths := paths }
    match s.tests with
    | none => .error (.typeError none_iter_msg)
    | some ts =>
        .ok (ts.foldl (fun acc runnable => acc ++ [add_variant E runnable variant]) [])
  else if !s.variants.itertests.isEmpty then
    if s.config.get "run.execution_order" = some (.vStr "variants-per-test") then
      match s.tests with
      | none => .error (.typeError none_iter_msg)
      | some ts =>
          .ok (ts.foldl
            (fun acc runnable =>
              s.variants.itertests.foldl
                (fun acc variant => acc ++ [add_variant E runnable variant]) acc)
            [])
    else if s.config.get "run.execution_order" = some (.vStr "tests-per-variant") then
      match s.tests with
      | none => .error (.typeError none_iter_msg)
      | some ts =>
          .ok (s.variants.itertests.foldl
            (fun acc variant =>
              ts.foldl
                (fun acc runnable => acc ++ [add_variant E runnable variant]) acc)
            [])
    else
      .ok []
  else
    .ok []

/-- Python falsiness of the `tests` attribute: `None` or the empty list. -/
def testsFalsy (s : TestSuite) : Bool :=
  match s.tests with
  | none => true
  | some ts => ts.isEmpty

/-- `from_config` up to (and including) the variant expansion: merge the
configuration layers, run the resolver pipeline (`_from_config_with_resolver`,
wrapping resolver failures in `TestSuiteError` and defaulting the name to a
generated identifier), construct the suite, and replace its tests with the
expanded form when test parameters or variants are present. -/
def TestSuite.from_config_pre (E : Ext) (config : Config) (name : Option String)
    (job_config : Option Config) : Except PyError TestSuite :=
  let suite_config := config
  let cfg := merge3 E.settings_dict job_config (some suite_config)
  match E.resolveRefs cfg with
  | .error details => .error (.testSuiteError details)
  | .ok resolutions =>
      let runnables := resolutions_to_runnables E resolutions cfg
      let nm := name.getD E.uuid4
      match TestSuite.init E nm (some cfg) (some runnables) none (some resolutions) true with
      | .error e => .error e
      | .ok suite =>
          if !suite.test_parameters.isEmpty || !suite.variants.itertests.isEmpty then
            match suite._get_test_variants E with
            | .error e => .error e
            | .ok expanded => .ok { suite with tests := some expanded }
          else
            .ok suite

/-- `from_config`: the pipeline above followed by the final check — when
missing references are not tolerated, an empty (falsy) test list raises the
descriptive `TestSuiteError`. -/
def TestSuite.from_config (E : Ext) (config : Config) (name : Option String)
    (job_config : Option Config) : Except PyError TestSuite :=
  let cfg := merge3 E.settings_dict job_config (some config)
  match TestSuite.from_config_pre E config name job_config with
  | .error e => .error e
  | .ok suite =>
      if !truthyO (cfg.get "run.ignore_missing_references") then
        if testsFalsy suite then
          .error (.testSuiteError no_tests_msg)
        else
          .ok suite
      else
        .ok suite

/-! ### Helper lemmas on the imperative accumulation loops -/

/-- Accumulating a sub-list per element in a fold concatenates them all. -/
theorem foldl_append_eq {α β : Type} (h : α → List β) (l : List α) :
    ∀ acc : List β, l.foldl (fun a x => a ++ h x) acc = acc ++ l.flatMap h := by
  induction l with
  | nil => intro acc; simp
  | cons a t ih =>
      intro acc
      simp only [List.foldl_cons, ih, List.flatMap_cons]
      simp

/-- `flatMap` with singleton images is `map`. -/
theorem flatMap_singleton_eq_map {α β : Type} (g : α → β) (l : List α) :
    l.flatMap (fun x => [g x]) = l.map g := by
  induction l with
  | nil => rfl
  | cons a t ih => simp [List.flatMap_cons, ih]

/-- Appending one element at a time in a fold produces the mapped list. -/
theorem foldl_snoc_eq_append_map {α β : Type} (g : α → β) (l : List α) :
    ∀ acc : List β, l.foldl (fun a x => a ++ [g x]) acc = acc ++ l.map g := by
  intro acc
  rw [foldl_append_eq (fun x => [g x]) l acc, flatMap_singleton_eq_map]

/-- The nested accumulation loop over two lists produces the ordered
cross-product, outer list major. -/
theorem foldl_prod_eq {α β γ : Type} (f : α → β → γ) (ts : List α) (vs : List β) :
    ∀ acc : List γ,
      ts.foldl (fun acc r => vs.foldl (fun acc v => acc ++ [f r v]) acc) acc =
        acc ++ ts.flatMap (fun r => vs.map (f r)) := by
  intro acc
  simp only [foldl_snoc_eq_append_map]
  exact foldl_append_eq (fun r => vs.map (f r)) ts acc

/-- Length of the ordered cross-product. -/
theorem flatMap_prod_length {α β γ : Type} (f : α → β → γ) (ts : List α) (vs : List β) :
    (ts.flatMap (fun r => vs.map (f r))).length = ts.length * vs.length := by
  induction ts with
  | nil => simp
  | cons a t ih =>
      simp [List.flatMap_cons, ih, Nat.succ_mul, Nat.add_comm]

/-! ### Sample data for concrete witnesses -/

/-- The empty configuration mapping. -/
def emptyConfig : Config := fun _ => none

/-- A sample resolved runnable. -/
def sampleRunnable : Runnable :=
  { kind := "exec-test", uri := "/bin/true", tags := ["fast"],
    default_config := emptyConfig, variant := none }

/-- A second sample runnable of a different kind. -/
def sampleRunnable2 : Runnable :=
  { kind := "python-unittest", uri := "test.py", tags := [],
    default_config := emptyConfig, variant := none }

/-- A sample non-empty variant, as the variant-generation engine would
produce. -/
def sampleVariant1 : Variant :=
  { variant := .varlist [{ path := "/run", value := [("x", "1")] }],
    variant_id := some "v1", paths := ["/run"] }

/-- A second sample non-empty variant. -/
def sampleVariant2 : Variant :=
  { variant := .varlist [{ path := "/run", value := [("x", "2")] }],
    variant_id := some "v2", paths := ["/run"] }

/-- A concrete instantiation of the external collaborators:
tree-emptiness for `is_empty_variant`, a path/id rendering for
`dump_variant`, trivial carve-outs and an empty default registry. -/
def extBase : Ext :=
  { is_empty_variant := fun p => match p with
      | .tree t => t.value.isEmpty
      | .varlist l => l.all (fun n => n.value.isEmpty),
    dump_variant := fun v => String.intercalate "," v.paths ++ ":" ++ v.variant_id.getD "None",
    frc := fun _ _ => emptyConfig,
    ftr := fun _ _ _ _ => [],
    varianterOf := fun _ => { itertests := [] },
    settings_dict := emptyConfig,
    resolveRefs := fun _ => Except.ok [],
    uuid4 := "uuid-0000" }

/-- A suite record with the given test list and otherwise inert fields. -/
def mkSuiteW (tests : Option (List Runnable)) : TestSuite :=
  { name := "w", tests := tests, resolutions := none, enabled := true,
    config := emptyConfig, variants := { itertests := [] } }

/-! ### Claim theorems -/

/-- C9: the `status` property is a pure projection of `tests`: `None` yields
`RESOLUTION_NOT_STARTED`, the empty list `TESTS_NOT_FOUND`, a non-empty list
`TESTS_FOUND`, and `UNKNOWN` is never returned. -/
theorem c9_status_projection (s : TestSuite) :
    (s.tests = none → s.status = TestSuiteStatus.RESOLUTION_NOT_STARTED) ∧
    (s.tests = some [] → s.status = TestSuiteStatus.TESTS_NOT_FOUND) ∧
    (∀ r rs, s.tests = some (r :: rs) → s.status = TestSuiteStatus.TESTS_FOUND) ∧
    s.status ≠ TestSuiteStatus.UNKNOWN := by
  refine ⟨?_, ?_, ?_, ?_⟩
  · intro h; simp [TestSuite.status, h]
  · intro h; simp [TestSuite.status, TestSuite.size, h]
  · intro r rs h; simp [TestSuite.status, TestSuite.size, h]
  · cases h : s.tests with
    | none => simp [TestSuite.status, h]
    | some ts =>
        by_cases hl : ts.length = 0 <;>
          simp [TestSuite.status, TestSuite.size, h, hl, Nat.pos_of_ne_zero]

/-- Witness for C9 at the three concrete shapes of the test list. -/
theorem c9_status_projection_witness :
    (mkSuiteW none).status = TestSuiteStatus.RESOLUTION_NOT_STARTED ∧
    (mkSuiteW (some [])).status = TestSuiteStatus.TESTS_NOT_FOUND ∧
    (mkSuiteW (some [sampleRunnable])).status = TestSuiteStatus.TESTS_FOUND :=
  ⟨(c9_status_projection (mkSuiteW none)).1 rfl,
   (c9_status_projection (mkSuiteW (some []))).2.1 rfl,
   (c9_status_projection (mkSuiteW (some [sampleRunnable]))).2.2.1 sampleRunnable [] rfl⟩

/-- C8: dry-run conversion is a no-op unless the configured runner is
`"nrunner"`; under `"nrunner"` it rewrites every runnable's `kind` to
`"dry-run"` touching no other field; and the conversion is idempotent. -/
theorem c8_dry_run_idempotent (s : TestSuite) (ts : List Runnable)
    (h : s.tests = some ts) :
    (s.config.get "run.suite_runner" ≠ some (Value.vStr "nrunner") →
      s.convert_to_dry_run = Except.ok s) ∧
    (s.config.get "run.suite_runner" = some (Value.vStr "nrunner") →
      s.convert_to_dry_run =
        Except.ok { s with
          tests := some (ts.map (fun r =>
            { kind := "dry-run", uri := r.uri, tags := r.tags,
              default_config := r.default_config, variant := r.variant })) }) ∧
    (∀ s', s.convert_to_dry_run = Except.ok s' →
      s'.convert_to_dry_run = Except.ok s') := by
  refine ⟨?_, ?_, ?_⟩
  · intro hne; simp [TestSuite.convert_to_dry_run, hne]
  · intro he; simp [TestSuite.convert_to_dry_run, he, h]
  · intro s' hok
    by_cases hr : s.config.get "run.suite_runner" = some (Value.vStr "nrunner")
    · rw [TestSuite.convert_to_dry_run, if_pos hr, h] at hok
      have hs' : s' = { s with tests := some (ts.map (fun r => { r with kind := "dry-run" })) } := by
        cases hok; rfl
      subst hs'
      rw [TestSuite.convert_to_dry_run]
      rw [if_pos hr]
      simp only [List.map_map]
      congr 2
    · rw [TestSuite.convert_to_dry_run, if_neg hr] at hok
      cases hok
      rw [TestSuite.convert_to_dry_run, if_neg hr]

/-- Witness for C8 at a one-test suite configured with the nrunner. -/
theorem c8_dry_run_idempotent_witness :
    (mkSuiteW (some [sampleRunnable]) |>.convert_to_dry_run) =
      Except.ok (mkSuiteW (some [sampleRunnable])) :=
  (c8_dry_run_idempotent (mkSuiteW (some [sampleRunnable])) [sampleRunnable] rfl).1
    (by simp [mkSuiteW, emptyConfig, Config.get])

/-- C1: constructing a suite whose merged configuration carries non-empty
test parameters while the variant engine yields at least one non-empty
variant raises the documented mutual-exclusion `TestSuiteError`; with only
one of the two sources present, the mutual-exclusion check does not fire. -/
theorem c1_mutual_exclusion (E : Ext) (name : String) (config : Option Config)
    (tests : Option (List Runnable)) (job_config : Option Config)
    (resolutions : Option (List ReferenceResolution)) (enabled : Bool) :
    ((TestSuite.initial E name config tests job_config resolutions enabled).test_parameters ≠ [] ∧
        (∃ v ∈ (TestSuite.initial E name config tests job_config resolutions enabled).variants.itertests,
          E.is_empty_variant v.variant = false) →
      TestSuite.init E name config tests job_config resolutions enabled =
        Except.error (PyError.testSuiteError mutual_exclusion_msg)) ∧
    ((TestSuite.initial E name config tests job_config resolutions enabled).test_parameters = [] ∨
        (∀ v ∈ (TestSuite.initial E name config tests job_config resolutions enabled).variants.itertests,
          E.is_empty_variant v.variant = true) →
      (TestSuite.initial E name config tests job_config resolutions enabled).has_both_parameters_and_variants E = false) := by
  constructor
  · rintro ⟨h1, v, hv, hve⟩
    have hb : (TestSuite.initial E name config tests job_config resolutions enabled).has_both_parameters_and_variants E = true := by
      cases htp : (TestSuite.initial E name config tests job_config resolutions enabled).test_parameters with
      | nil => exact absurd htp h1
      | cons a l =>
          simp only [TestSuite.has_both_parameters_and_variants, htp, List.isEmpty_cons,
            Bool.false_eq_true, if_false, List.any_eq_true]
          exact ⟨v, hv, by rw [hve]; rfl⟩
    simp [TestSuite.init, hb]
  · rintro (h | h)
    · simp [TestSuite.has_both_parameters_and_variants, h]
    · cases htp : (TestSuite.initial E name config tests job_config resolutions enabled).test_parameters with
      | nil => simp [TestSuite.has_both_parameters_and_variants, htp]
      | cons a l =>
          simp only [TestSuite.has_both_parameters_and_variants, htp, List.isEmpty_cons,
            Bool.false_eq_true, if_false, List.any_eq_false]
          intro v hv
          simp [h v hv]

/-- A configuration supplying explicit test parameters. -/
def cfgTestParams : Config :=
  fun k => if k = "run.test_parameters" then some (.vPairs [("p1", "x")]) else none

/-- The external collaborators with a variant engine yielding one non-empty
variant. -/
def extWithVariant : Ext :=
  { extBase with varianterOf := fun _ => { itertests := [sampleVariant1] } }

/-- Witness for C1: both sources present fails with the documented error;
parameters alone leave the check silent. -/
theorem c1_mutual_exclusion_witness :
    TestSuite.init extWithVariant "s1" (some cfgTestParams) none none none true =
      Except.error (PyError.testSuiteError mutual_exclusion_msg) ∧
    (TestSuite.initial extBase "s2" (some cfgTestParams) none none none true).has_both_parameters_and_variants extBase = false :=
  ⟨(c1_mutual_exclusion extWithVariant "s1" (some cfgTestParams) none none none true).1
      ⟨by decide, ⟨sampleVariant1, by decide, rfl⟩⟩,
   (c1_mutual_exclusion extBase "s2" (some cfgTestParams) none none none true).2
      (Or.inr (by intro v hv; simp [TestSuite.initial, extBase] at hv))⟩

/-- C6: with empty test parameters, at least one variant, and an
execution-order value other than the two recognized strings (absence
included), `_get_test_variants` returns the empty list without raising. -/
theorem c6_unknown_execution_order (E : Ext) (s : TestSuite)
    (h2 : s.test_parameters = []) (h3 : s.variants.itertests ≠ [])
    (h4 : s.config.get "run.execution_order" ≠ some (Value.vStr "variants-per-test"))
    (h5 : s.config.get "run.execution_order" ≠ some (Value.vStr "tests-per-variant")) :
    s._get_test_variants E = Except.ok [] := by
  cases hit : s.variants.itertests with
  | nil => exact absurd hit h3
  | cons v vs =>
      simp [TestSuite._get_test_variants, h2, hit, h4, h5]

/-- A suite with one test, one variant and an empty configuration (so the
execution order is absent). -/
def suiteNoOrder : TestSuite :=
  { name := "s6", tests := some [sampleRunnable], resolutions := none,
    enabled := true, config := emptyConfig,
    variants := { itertests := [sampleVariant1] } }

/-- Witness for C6 at a concrete suite with an absent execution order. -/
theorem c6_unknown_execution_order_witness :
    suiteNoOrder._get_test_variants extBase = Except.ok [] :=
  c6_unknown_execution_order extBase suiteNoOrder rfl (by decide)
    (by decide) (by decide)

/-- C2: with T tests, empty test parameters and at least one variant,
expansion produces exactly T×V bindings; `"variants-per-test"` binds test 1
to every variant, then test 2, etc.; `"tests-per-variant"` binds variant 1
to every test, then variant 2, etc. -/
theorem c2_variant_expansion (E : Ext) (s : TestSuite) (ts : List Runnable)
    (h1 : s.tests = some ts) (h2 : s.test_parameters = [])
    (h3 : s.variants.itertests ≠ []) :
    (s.config.get "run.execution_order" = some (Value.vStr "variants-per-test") →
      s._get_test_variants E =
        Except.ok (ts.flatMap (fun r => s.variants.itertests.map (fun v => add_variant E r v))) ∧
      (ts.flatMap (fun r => s.variants.itertests.map (fun v => add_variant E r v))).length =
        ts.length * s.variants.itertests.length) ∧
    (s.config.get "run.execution_order" = some (Value.vStr "tests-per-variant") →
      s._get_test_variants E =
        Except.ok (s.variants.itertests.flatMap (fun v => ts.map (fun r => add_variant E r v))) ∧
      (s.variants.itertests.flatMap (fun v => ts.map (fun r => add_variant E r v))).length =
        ts.length * s.variants.itertests.length) := by
  have hE : s.variants.itertests.isEmpty = false := by
    cases hit : s.variants.itertests with
    | nil => exact absurd hit h3
    | cons v vs => rfl
  constructor
  · intro h4
    constructor
    · simp [TestSuite._get_test_variants, h2, hE, h4, h1, foldl_prod_eq]
    · exact flatMap_prod_length (fun r v => add_variant E r v) ts s.variants.itertests
  · intro h5
    constructor
    · simp [TestSuite._get_test_variants, h2, hE, h5, h1, foldl_prod_eq]
    · rw [flatMap_prod_length (fun v r => add_variant E r v) s.variants.itertests ts,
        Nat.mul_comm]

/-- A suite with two tests, two variants, and a configurable execution
order. -/
def suiteTwoByTwo (order : String) : TestSuite :=
  { name := "s2x2", tests := some [sampleRunnable, sampleRunnable2],
    resolutions := none, enabled := true,
    config := fun k => if k = "run.execution_order" then some (.vStr order) else none,
    variants := { itertests := [sampleVariant1, sampleVariant2] } }

/-- Witness for C2 at a 2×2 suite under both execution orders. -/
theorem c2_variant_expansion_witness :
    ((suiteTwoByTwo "variants-per-test")._get_test_variants extBase =
      Except.ok
        ([sampleRunnable, sampleRunnable2].flatMap (fun r =>
          [sampleVariant1, sampleVariant2].map (fun v => add_variant extBase r v)))) ∧
    ((suiteTwoByTwo "tests-per-variant")._get_test_variants extBase =
      Except.ok
        ([sampleVariant1, sampleVariant2].flatMap (fun v =>
          [sampleRunnable, sampleRunnable2].map (fun r => add_variant extBase r v)))) :=
  ⟨((c2_variant_expansion extBase (suiteTwoByTwo "variants-per-test")
      [sampleRunnable, sampleRunnable2] rfl rfl (by decide)).1 (by decide)).1,
   ((c2_variant_expansion extBase (suiteTwoByTwo "tests-per-variant")
      [sampleRunnable, sampleRunnable2] rfl rfl (by decide)).2 (by decide)).1⟩

/-- C5: with non-empty test parameters, expansion binds every test, in
order, to the one synthetic variant (id `None`, single root path `"/"`,
tree payload the flattened parameter dict) — exactly T bindings — and the
value of `run.execution_order` has no effect on the result. -/
theorem get_test_variants_params (E : Ext) (s : TestSuite) (ts : List Runnable)
    (h1 : s.tests = some ts) (hne : s.test_parameters.isEmpty = false) :
    s._get_test_variants E =
      Except.ok (ts.map (fun r => add_variant E r
        { variant := .tree { path := "/", value := s.test_parameters },
          variant_id := none, paths := ["/"] })) := by
  simp [TestSuite._get_test_variants, hne, h1, foldl_snoc_eq_append_map]

/-- C5: with non-empty test parameters, expansion binds every test, in
order, to the one synthetic variant (id `None`, single root path `"/"`,
tree payload the flattened parameter dict) — exactly T bindings — and the
value of `run.execution_order` has no effect on the result. -/
theorem c5_test_parameters_expansion (E : Ext) (s : TestSuite) (ts : List Runnable)
    (h1 : s.tests = some ts) (h2 : s.test_parameters ≠ []) :
    (s._get_test_variants E =
      Except.ok (ts.map (fun r => add_variant E r
        { variant := .tree { path := "/", value := s.test_parameters },
          variant_id := none, paths := ["/"] }))) ∧
    (∀ out, s._get_test_variants E = Except.ok out → out.length = ts.length) ∧
    (∀ v : Option Value,
      TestSuite._get_test_variants E
        { s with config := fun k => if k = "run.execution_order" then v else s.config k } =
        s._get_test_variants E) := by
  have hne : s.test_parameters.isEmpty = false := by
    cases htp : s.test_parameters with
    | nil => exact absurd htp h2
    | cons a l => rfl
  have hmain := get_test_variants_params E s ts h1 hne
  refine ⟨hmain, ?_, ?_⟩
  · intro out hout
    rw [hmain] at hout
    cases hout
    exact List.length_map ts _
  · intro v
    have htp' : TestSuite.test_parameters
        { s with config := fun k => if k = "run.execution_order" then v else s.config k } =
        s.test_parameters := by
      simp [TestSuite.test_parameters, Config.get]
    have hne' : (TestSuite.test_parameters
        { s with config := fun k => if k = "run.execution_order" then v else s.config k }).isEmpty = false := by
      rw [htp']; exact hne
    rw [get_test_variants_params E
        { s with config := fun k => if k = "run.execution_order" then v else s.config k }
        ts h1 hne', hmain, htp']

/-- A suite with two tests, explicit test parameters, and an execution
order set (which must be ignored). -/
def suiteWithParams : TestSuite :=
  { name := "sp", tests := some [sampleRunnable, sampleRunnable2],
    resolutions := none, enabled := true,
    config := fun k =>
      if k = "run.test_parameters" then some (.vPairs [("p1", "x"), ("p2", "y")])
      else if k = "run.execution_order" then some (.vStr "tests-per-variant")
      else none,
    variants := { itertests := [] } }

/-- Witness for C5 at a two-test suite with two test parameters. -/
theorem c5_test_parameters_expansion_witness :
    suiteWithParams._get_test_variants extBase =
      Except.ok ([sampleRunnable, sampleRunnable2].map (fun r => add_variant extBase r
        { variant := .tree { path := "/", value := suiteWithParams.test_parameters },
          variant_id := none, paths := ["/"] })) :=
  (c5_test_parameters_expansion extBase suiteWithParams
    [sampleRunnable, sampleRunnable2] rfl (by decide)).1

/-- Length of a `flatMap` of mapped sub-lists: the sum of the sub-list
lengths. -/
theorem flatMap_map_length {α β γ : Type} (g : β → γ) (sel : α → List β) (l : List α) :
    (l.flatMap (fun a => (sel a).map g)).length = (l.map (fun a => (sel a).length)).sum := by
  induction l with
  | nil => rfl
  | cons a t ih => simp [List.flatMap_cons, ih]

/-- The resolution-accumulation loop of `resolutions_to_runnables` keeps
exactly the runnables of `SUCCESS` resolutions, in order, with the per-kind
configuration attached. -/
theorem resolutions_fold_eq (E : Ext) (config : Config) (rs : List ReferenceResolution) :
    ∀ acc : List Runnable,
      rs.foldl
        (fun result resolution =>
          if resolution.result ≠ ReferenceResolutionResult.SUCCESS then
            result
          else
            resolution.resolutions.foldl
              (fun result runnable =>
                result ++ [{ runnable with default_config := E.frc runnable.kind config }])
              result)
        acc =
      acc ++ (rs.filter (fun res => res.result == ReferenceResolutionResult.SUCCESS)).flatMap
        (fun res => res.resolutions.map
          (fun rn => { rn with default_config := E.frc rn.kind config })) := by
  induction rs with
  | nil => intro acc; simp
  | cons a t ih =>
      intro acc
      rw [List.foldl_cons]
      by_cases hs : a.result = ReferenceResolutionResult.SUCCESS
      · rw [if_neg (not_not_intro hs), foldl_snoc_eq_append_map, ih,
          List.filter_cons_of_pos (by simp [hs]), List.flatMap_cons, List.append_assoc]
      · rw [if_pos hs, ih, List.filter_cons_of_neg (by simp [hs])]

/-- C4: without a configured tag filter, `resolutions_to_runnables` returns
precisely the runnables of the `SUCCESS` resolutions, in resolution order
then intra-resolution order, each with its kind-specific filtered
configuration; non-`SUCCESS` resolutions contribute nothing, so the count
is the total runnable count of the successful resolutions. -/
theorem c4_resolution_filtering (E : Ext) (resolutions : List ReferenceResolution)
    (config : Config)
    (h : truthyO (config.get "filter.by_tags.tags") = false) :
    resolutions_to_runnables E resolutions config =
      (resolutions.filter (fun res => res.result == ReferenceResolutionResult.SUCCESS)).flatMap
        (fun res => res.resolutions.map
          (fun rn => { rn with default_config := E.frc rn.kind config })) ∧
    (resolutions_to_runnables E resolutions config).length =
      ((resolutions.filter (fun res => res.result == ReferenceResolutionResult.SUCCESS)).map
        (fun res => res.resolutions.length)).sum := by
  have hmain : resolutions_to_runnables E resolutions config =
      (resolutions.filter (fun res => res.result == ReferenceResolutionResult.SUCCESS)).flatMap
        (fun res => res.resolutions.map
          (fun rn => { rn with default_config := E.frc rn.kind config })) := by
    simp only [resolutions_to_runnables]
    rw [if_neg (by simpa [Config.get] using h), resolutions_fold_eq]
    simp
  refine ⟨hmain, ?_⟩
  rw [hmain]
  exact flatMap_map_length _ ReferenceResolution.resolutions _

/-- A concrete resolution list: two successes around one failure. -/
def sampleResolutions : List ReferenceResolution :=
  [{ result := .SUCCESS, resolutions := [sampleRunnable] },
   { result := .NOTFOUND, resolutions := [sampleRunnable2] },
   { result := .SUCCESS, resolutions := [sampleRunnable2, sampleRunnable] }]

/-- Witness for C4 at three concrete resolutions with no tag filter. -/
theorem c4_resolution_filtering_witness :
    resolutions_to_runnables extBase sampleResolutions emptyConfig =
      (sampleResolutions.filter (fun res => res.result == ReferenceResolutionResult.SUCCESS)).flatMap
        (fun res => res.resolutions.map
          (fun rn => { rn with default_config := extBase.frc rn.kind emptyConfig })) ∧
    (resolutions_to_runnables extBase sampleResolutions emptyConfig).length =
      ((sampleResolutions.filter
        (fun res => res.result == ReferenceResolutionResult.SUCCESS)).map
        (fun res => res.resolutions.length)).sum :=
  c4_resolution_filtering extBase sampleResolutions emptyConfig rfl

/-- Dry-run conversion never changes the suite configuration. -/
theorem convert_to_dry_run_config (s s' : TestSuite)
    (h : s.convert_to_dry_run = Except.ok s') : s'.config = s.config := by
  rw [TestSuite.convert_to_dry_run] at h
  by_cases hr : s.config.get "run.suite_runner" = some (Value.vStr "nrunner")
  · rw [if_pos hr] at h
    cases ht : s.tests with
    | none => rw [ht] at h; exact Except.noConfusion h
    | some ts => rw [ht] at h; cases h; rfl
  · rw [if_neg hr] at h; cases h; rfl

/-- A successfully constructed suite carries exactly the three-layer merged
configuration. -/
theorem init_config (E : Ext) (name : String) (config : Option Config)
    (tests : Option (List Runnable)) (job_config : Option Config)
    (resolutions : Option (List ReferenceResolution)) (enabled : Bool) (s : TestSuite)
    (h : TestSuite.init E name config tests job_config resolutions enabled = Except.ok s) :
    s.config = merge3 E.settings_dict job_config config := by
  simp only [TestSuite.init] at h
  split at h
  · exact Except.noConfusion h
  · split at h
    · exact convert_to_dry_run_config _ _ h
    · cases h; rfl

/-- Re-merging an already merged configuration over the same defaults layer
changes nothing, key by key. -/
theorem merge3_resolve (d : Config) (j : Option Config) (c : Config) (k : String) :
    merge3 d none (some (merge3 d j (some c))) k = merge3 d j (some c) k := by
  cases j with
  | none =>
      cases hc : c k <;> cases hd : d k <;> simp [merge3, Config.update, hc, hd]
  | some jj =>
      cases hc : c k <;> cases hj : jj k <;> cases hd : d k <;>
        simp [merge3, Config.update, hc, hj, hd]

/-- The suite produced by the factory pipeline (before the final empty-suite
check) carries, key by key, the three-layer merged configuration. -/
theorem from_config_pre_config (E : Ext) (c : Config) (nm : Option String)
    (j : Option Config) (suite : TestSuite)
    (h : TestSuite.from_config_pre E c nm j = Except.ok suite) (k : String) :
    suite.config k = merge3 E.settings_dict j (some c) k := by
  simp only [TestSuite.from_config_pre] at h
  split at h
  · exact Except.noConfusion h
  · rename_i resolutions hres
    split at h
    · exact Except.noConfusion h
    · rename_i suite0 hinit
      have h0 : suite0.config = merge3 E.settings_dict none
          (some (merge3 E.settings_dict j (some c))) :=
        init_config E _ _ _ _ _ _ _ hinit
      split at h
      · split at h
        · exact Except.noConfusion h
        · cases h
          show suite0.config k = _
          rw [h0, merge3_resolve]
      · cases h
        rw [h0, merge3_resolve]

/-- C3: the effective configuration maps each key to the suite-config value
when present, else the job-config value, else the registered default —
later layers win key by key — and both the constructor and the factory
produce exactly this merge. -/
theorem c3_config_precedence (E : Ext) (j c : Config) (k : String) (name : String)
    (tests : Option (List Runnable)) (resolutions : Option (List ReferenceResolution))
    (enabled : Bool) (nm : Option String) :
    (∀ d : Config, merge3 d (some j) (some c) k =
      match c k with
      | some v => some v
      | none =>
        match j k with
        | some v => some v
        | none => d k) ∧
    (∀ s, TestSuite.init E name (some c) tests (some j) resolutions enabled = Except.ok s →
      s.config k = merge3 E.settings_dict (some j) (some c) k) ∧
    (∀ s, TestSuite.from_config E c nm (some j) = Except.ok s →
      s.config k = merge3 E.settings_dict (some j) (some c) k) := by
  refine ⟨?_, ?_, ?_⟩
  · intro d
    cases hc : c k <;> cases hj : j k <;> simp [merge3, Config.update, hc, hj]
  · intro s hok
    rw [init_config E name (some c) tests (some j) resolutions enabled s hok]
  · intro s hok
    simp only [TestSuite.from_config] at hok
    split at hok
    · exact Except.noConfusion hok
    · rename_i suite hpre
      split at hok
      · split at hok
        · exact Except.noConfusion hok
        · cases hok
          exact from_config_pre_config E c nm (some j) _ hpre k
      · cases hok
        exact from_config_pre_config E c nm (some j) _ hpre k

/-- A defaults layer and distinct job and suite layers, overlapping on
different keys. -/
def cfgDefaultsW : Config :=
  fun k => if k = "a" then some (.vStr "d") else if k = "b" then some (.vStr "d") else
    if k = "c" then some (.vStr "d") else none

/-- The job-config overlay for the C3 witness. -/
def cfgJobW : Config :=
  fun k => if k = "a" then some (.vStr "j") else if k = "b" then some (.vStr "j") else none

/-- The suite-config overlay for the C3 witness. -/
def cfgSuiteW : Config :=
  fun k => if k = "a" then some (.vStr "s") else none

/-- Witness for C3: precedence on the three overlapping layers and on a
concrete successful construction. -/
theorem c3_config_precedence_witness :
    merge3 cfgDefaultsW (some cfgJobW) (some cfgSuiteW) "a" = some (.vStr "s") ∧
    merge3 cfgDefaultsW (some cfgJobW) (some cfgSuiteW) "b" = some (.vStr "j") ∧
    merge3 cfgDefaultsW (some cfgJobW) (some cfgSuiteW) "c" = some (.vStr "d") ∧
    ∀ s, TestSuite.init extBase "w3" (some cfgSuiteW) none (some cfgJobW) none true =
        Except.ok s →
      s.config "a" = merge3 extBase.settings_dict (some cfgJobW) (some cfgSuiteW) "a" :=
  ⟨((c3_config_precedence extBase cfgJobW cfgSuiteW "a" "w3" none none true none).1 cfgDefaultsW).trans rfl,
   ((c3_config_precedence extBase cfgJobW cfgSuiteW "b" "w3" none none true none).1 cfgDefaultsW).trans rfl,
   ((c3_config_precedence extBase cfgJobW cfgSuiteW "c" "w3" none none true none).1 cfgDefaultsW).trans rfl,
   fun s hok =>
     (c3_config_precedence extBase cfgJobW cfgSuiteW "a" "w3" none none true none).2.1 s hok⟩

/-- A falsy test list means size 0. -/
theorem testsFalsy_size (s : TestSuite) (h : testsFalsy s = true) : s.size = 0 := by
  rw [TestSuite.size]
  rw [testsFalsy] at h
  cases ht : s.tests with
  | none => rfl
  | some ts => rw [ht] at h; simpa using h

/-- C7: when the factory pipeline yields a suite with a falsy test list,
`from_config` raises the descriptive no-tests `TestSuiteError` unless
`run.ignore_missing_references` is set, in which case it returns the valid
empty suite (size 0). -/
theorem c7_missing_reference_tolerance (E : Ext) (c : Config) (nm : Option String)
    (j : Option Config) (suite : TestSuite)
    (hpre : TestSuite.from_config_pre E c nm j = Except.ok suite)
    (hf : testsFalsy suite = true) :
    (truthyO ((merge3 E.settings_dict j (some c)).get "run.ignore_missing_references") = false →
      TestSuite.from_config E c nm j = Except.error (PyError.testSuiteError no_tests_msg)) ∧
    (truthyO ((merge3 E.settings_dict j (some c)).get "run.ignore_missing_references") = true →
      TestSuite.from_config E c nm j = Except.ok suite ∧ suite.size = 0) := by
  constructor
  · intro hig
    simp only [TestSuite.from_config, hpre, hig, hf]
    rfl
  · intro hig
    refine ⟨?_, testsFalsy_size suite hf⟩
    simp only [TestSuite.from_config, hpre, hig]
    rfl

/-- A configuration enabling missing-reference tolerance. -/
def c7cfg : Config :=
  fun k => if k = "run.ignore_missing_references" then some (.vBool true) else none

/-- The empty suite the factory pipeline produces from `c7cfg` under the
base collaborators (no references resolve, no variants, no parameters). -/
def c7suite : TestSuite :=
  TestSuite.initial extBase "uuid-0000"
    (some (merge3 extBase.settings_dict none (some c7cfg))) (some []) none (some []) true

/-- Witness for C7: with tolerance enabled the factory returns the valid
empty suite of size 0. -/
theorem c7_missing_reference_tolerance_witness :
    TestSuite.from_config extBase c7cfg none none = Except.ok c7suite ∧ c7suite.size = 0 :=
  (c7_missing_reference_tolerance extBase c7cfg none none c7suite rfl rfl).2 rfl

/-- C10 counterexample: a construction with `run.dry_run.enabled` truthy,
`run.suite_runner = "nrunner"` and `tests = None` that also carries both
parameter sources fails with the mutual-exclusion `TestSuiteError`, not with
the `TypeError` the claim predicts for every such construction — the
mutual-exclusion check runs first. -/
theorem c10_counterexample :
    TestSuite.init extWithVariant "c10"
        (some (fun k =>
          if k = "run.test_parameters" then some (.vPairs [("p1", "x")])
          else if k = "run.dry_run.enabled" then some (.vBool true)
          else if k = "run.suite_runner" then some (.vStr "nrunner")
          else none))
        none none none true =
      Except.error (PyError.testSuiteError mutual_exclusion_msg) ∧
    TestSuite.init extWithVariant "c10"
        (some (fun k =>
          if k = "run.test_parameters" then some (.vPairs [("p1", "x")])
          else if k = "run.dry_run.enabled" then some (.vBool true)
          else if k = "run.suite_runner" then some (.vStr "nrunner")
          else none))
        none none none true ≠
      Except.error (PyError.typeError none_iter_msg) := by
  refine ⟨rfl, fun h => ?_⟩
  rw [show TestSuite.init extWithVariant "c10"
        (some (fun k =>
          if k = "run.test_parameters" then some (.vPairs [("p1", "x")])
          else if k = "run.dry_run.enabled" then some (.vBool true)
          else if k = "run.suite_runner" then some (.vStr "nrunner")
          else none))
        none none none true =
      Except.error (PyError.testSuiteError mutual_exclusion_msg) from rfl] at h
  injection h with h'
  exact PyError.noConfusion h'

/-- C10 (amended): provided the mutual-exclusion check does not fire, a
construction with `run.dry_run.enabled` truthy, `run.suite_runner` equal to
`"nrunner"` and no test list fails with the `TypeError` from iterating
`None` in the dry-run conversion, not with a `TestSuiteError`. -/
theorem c10_dry_run_none_tests (E : Ext) (name : String) (config : Option Config)
    (job_config : Option Config) (resolutions : Option (List ReferenceResolution))
    (enabled : Bool)
    (hnb : (TestSuite.initial E name config none job_config resolutions
      enabled).has_both_parameters_and_variants E = false)
    (hdry : truthyO ((merge3 E.settings_dict job_config config).get "run.dry_run.enabled") = true)
    (hrun : (merge3 E.settings_dict job_config config).get "run.suite_runner" =
      some (Value.vStr "nrunner")) :
    TestSuite.init E name config none job_config resolutions enabled =
      Except.error (PyError.typeError none_iter_msg) := by
  simp only [TestSuite.init, hnb, Bool.false_eq_true, if_false]
  have hc : (TestSuite.initial E name config none job_config resolutions enabled).config =
      merge3 E.settings_dict job_config config := rfl
  rw [hc, hdry, if_pos rfl, TestSuite.convert_to_dry_run, hc, if_pos hrun]
  rfl

/-- A configuration with dry-run enabled under the nrunner and no parameter
source. -/
def c10cfgOk : Config :=
  fun k =>
    if k = "run.dry_run.enabled" then some (.vBool true)
    else if k = "run.suite_runner" then some (.vStr "nrunner")
    else none

/-- Witness for the amended C10 at a concrete benign configuration. -/
theorem c10_dry_run_none_tests_witness :
    TestSuite.init extBase "w10" (some c10cfgOk) none none none true =
      Except.error (PyError.typeError none_iter_msg) :=
  c10_dry_run_none_tests extBase "w10" (some c10cfgOk) none none true rfl rfl rfl

end Avocado
